import Mathlib

/-!
# Dedicated server bootstrap (rts/builds/dedicated/main.cpp)

A shallow embedding of `main` of the Spring dedicated server, from the point
where `ParseCmdLine` has produced `scriptName` (line 163) to the end of the
supervision loops (line 249).

Modelling conventions.

* `std::string` is a Lean `String`, one `Char` per C++ `char`; `length()` is
  `String.length`.
* `unsigned int` values (hashes, checksums, seed) are `Nat`; `main` performs no
  arithmetic on them, it only copies them.
* Classes whose implementation lives outside this file (`CFileHandler`,
  `CGameSetup`, `ClientSetup`, `CArchiveScanner`, `CVFSHandler`, `UnsyncedRNG`,
  `CGameServer`) are parameters: `Env`, `UnsyncedRNG`, `CGameServer`. Their
  calls are assumed to return normally.
* `main` is run for a bounded number of loop iterations (`fuel`); it yields the
  sequence of effects performed so far (`Run.trace`) and how far it got
  (`Run.status`).
* The server runs in its own thread. Its two queries are sampled per poll
  tick: `HasGameID t` and `HasFinished t` are what the server answers after
  `t` one-second sleeps of the main thread.
-/

namespace Dedicated

/-- Fields of `CGameSetup` read by `main` after `Init`. -/
structure CGameSetup where
  mapName : String
  modName : String
  mapHash : Nat
  modHash : Nat
  gameSetupText : String
deriving DecidableEq, Repr

/-- Fields of `ClientSetup` read by `main` after `Init`. -/
structure ClientSetup where
  hostIP : String
  hostPort : Nat
deriving DecidableEq, Repr

/-- The `GameData` object filled in by `main` and handed to `CGameServer`. -/
structure GameData where
  randomSeed : Nat
  mapChecksum : Nat
  modChecksum : Nat
  setup : String
deriving DecidableEq, Repr

/-- The generator class `UnsyncedRNG`: a freshly constructed state, the seeding
step and the draw. -/
structure UnsyncedRNG where
  State : Type
  fresh : State
  Seed : State → Nat → State
  RandInt : State → Nat × State

/-- The running `CGameServer` as seen by the polling thread, per poll tick. -/
structure CGameServer where
  HasGameID : Nat → Bool
  HasFinished : Nat → Bool

/-- Everything `main` reads from outside: the command line result, the file
system, the two script parsers, the archive scanner and the server. -/
structure Env where
  scriptName : String
  /-- The call `CFileHandler(path).FileExists()` -/
  FileExists : String → Bool
  /-- The call `CFileHandler(path).LoadStringData(out)`; `none` when it returns false -/
  LoadStringData : String → Option String
  /-- The call `ClientSetup::Init(scriptText)` -/
  ClientSetupInit : String → ClientSetup
  /-- The call `CGameSetup::Init(scriptText)`; `none` when it returns false -/
  GameSetupInit : String → Option CGameSetup
  /-- The call `archiveScanner->GetArchiveCompleteChecksum(name)` -/
  GetArchiveCompleteChecksum : String → Nat
  /-- The call `archiveScanner->ArchiveFromName(name)` -/
  ArchiveFromName : String → String
  /-- The server constructed at line 216 -/
  server : CGameServer

/-- Which block of `main` issued a content call: the map block (lines 192-203)
or the mod block (lines 205-211). -/
inductive ContentKind where
  | map
  | mod
deriving DecidableEq, Repr

/-- Effects performed by `main`, in program order. -/
inductive Event where
  /-- The call `rng.Seed(n)`, lines 187-188 -/
  | Seed (n : Nat)
  /-- The call `rng.RandInt()`, line 189 -/
  | RandInt
  /-- The call `data.SetRandomSeed(v)`, line 189 -/
  | SetRandomSeed (v : Nat)
  /-- The call `data.SetMapChecksum(v)`, lines 193 and 196 -/
  | SetMapChecksum (v : Nat)
  /-- The call `gameSetup->LoadStartPositions(full)`, lines 194 and 202 -/
  | LoadStartPositions (full : Bool)
  /-- The call `archiveScanner->GetArchiveCompleteChecksum(name)`, lines 196 and 209 -/
  | GetArchiveCompleteChecksum (kind : ContentKind) (name : String)
  /-- The check `CFileHandler f(path); f.FileExists()`, lines 198-199 -/
  | FileExists (path : String)
  /-- The call `vfsHandler->AddArchiveWithDeps(name, false)`, line 200 -/
  | AddArchiveWithDeps (name : String)
  /-- The call `archiveScanner->ArchiveFromName(name)`, line 208 -/
  | ArchiveFromName (name : String)
  /-- The call `data.SetModChecksum(v)`, lines 206 and 210 -/
  | SetModChecksum (v : Nat)
  /-- The call `data.SetSetup(text)`, line 215 -/
  | SetSetup (text : String)
  /-- The construction `new CGameServer(hostIP, hostPort, &data, gameSetup)`, line 216 -/
  | NewGameServer (hostIP : String) (hostPort : Nat) (data : GameData)
  /-- The `break` of the first loop, line 222 -/
  | Break
  /-- The call `spring_secs(1).sleep()`, lines 225 and 244 -/
  | Sleep
  /-- The block guarded by `printData`, lines 232-240: demo name, mod, map and
  GameID are fetched and logged -/
  | PrintData
  /-- The statement `delete server`, line 249 -/
  | DeleteServer
deriving DecidableEq, Repr

/-- How far a bounded run of `main` got. -/
inductive Status where
  /-- Still inside one of the two polling loops -/
  | running
  /-- A `content_error` was thrown (lines 169, 172) -/
  | threw (msg : String)
  /-- An explicit `return code` (line 180) -/
  | returned (code : Nat)
  /-- Both loops were left and the server was deleted (lines 247-254) -/
  | completed
deriving DecidableEq, Repr

/-- Result of a bounded run of `main`. -/
structure Run where
  trace : List Event
  status : Status
deriving DecidableEq, Repr

/-- Lines 187-189: seed the fresh generator twice, draw once. -/
def seedBlock (rng : UnsyncedRNG) (env : Env) (gameSetup : CGameSetup) : Nat × List Event :=
  let s1 := rng.Seed rng.fresh gameSetup.gameSetupText.length
  let s2 := rng.Seed s1 env.scriptName.length
  let v := (rng.RandInt s2).1
  (v, [Event.Seed gameSetup.gameSetupText.length, Event.Seed env.scriptName.length,
       Event.RandInt, Event.SetRandomSeed v])

/-- Lines 192-203: the map checksum and the start positions. -/
def mapBlock (env : Env) (gameSetup : CGameSetup) : Nat × List Event :=
  if gameSetup.mapHash ≠ 0 then
    (gameSetup.mapHash,
      [Event.SetMapChecksum gameSetup.mapHash, Event.LoadStartPositions false])
  else
    let c := env.GetArchiveCompleteChecksum gameSetup.mapName
    let path := "maps/" ++ gameSetup.mapName
    (c,
      [Event.GetArchiveCompleteChecksum ContentKind.map gameSetup.mapName,
       Event.SetMapChecksum c,
       Event.FileExists path] ++
      (if env.FileExists path = false then [Event.AddArchiveWithDeps gameSetup.mapName] else []) ++
      [Event.LoadStartPositions true])

/-- Lines 205-211: the mod checksum. -/
def modBlock (env : Env) (gameSetup : CGameSetup) : Nat × List Event :=
  if gameSetup.modHash ≠ 0 then
    (gameSetup.modHash, [Event.SetModChecksum gameSetup.modHash])
  else
    let modArchive := env.ArchiveFromName gameSetup.modName
    let modCheckSum := env.GetArchiveCompleteChecksum modArchive
    (modCheckSum,
      [Event.ArchiveFromName gameSetup.modName,
       Event.GetArchiveCompleteChecksum ContentKind.mod modArchive,
       Event.SetModChecksum modCheckSum])

/-- Lines 184-216: fill `data` and construct the server. -/
def launch (rng : UnsyncedRNG) (env : Env) (settings : ClientSetup) (gameSetup : CGameSetup) :
    GameData × List Event :=
  let seed := seedBlock rng env gameSetup
  let map := mapBlock env gameSetup
  let mod := modBlock env gameSetup
  let data : GameData :=
    { randomSeed := seed.1, mapChecksum := map.1, modChecksum := mod.1,
      setup := gameSetup.gameSetupText }
  (data,
    seed.2 ++ map.2 ++ mod.2 ++
    [Event.SetSetup gameSetup.gameSetupText,
     Event.NewGameServer settings.hostIP settings.hostPort data])

/-- Lines 218-226: the first loop, started at tick `t`. Returns the effects and
the tick at which the loop was left (`none`: fuel exhausted). -/
def awaitGameID (server : CGameServer) : Nat → Nat → List Event × Option Nat
  | 0, _ => ([], none)
  | fuel + 1, t =>
    if server.HasGameID t then ([], some t)
    else if server.HasFinished t then ([Event.Break], some t)
    else
      let r := awaitGameID server fuel (t + 1)
      (Event.Sleep :: r.1, r.2)

/-- Lines 228-245: the second loop, started at tick `t` with the given value
of the static `printData`. -/
def pollFinished (server : CGameServer) : Nat → Nat → Bool → List Event × Option Nat
  | 0, _, _ => ([], none)
  | fuel + 1, t, printData =>
    if server.HasFinished t then ([], some t)
    else
      let r := pollFinished server fuel (t + 1) false
      ((if printData then [Event.PrintData] else []) ++ Event.Sleep :: r.1, r.2)

/-- Lines 218-245: both loops; `printData` starts out `true`. The flag tells
whether the second loop was left. -/
def supervise (server : CGameServer) (fuel : Nat) : List Event × Bool :=
  let w := awaitGameID server fuel 0
  match w.2 with
  | none => (w.1, false)
  | some t =>
    let p := pollFinished server fuel t true
    (w.1 ++ p.1, p.2.isSome)

/-- Lines 163-254 of `main`. -/
def main (rng : UnsyncedRNG) (env : Env) (fuel : Nat) : Run :=
  if env.FileExists env.scriptName = false then
    { trace := [],
      status := Status.threw ("script does not exist in given location: " ++ env.scriptName) }
  else
    match env.LoadStringData env.scriptName with
    | none =>
      { trace := [], status := Status.threw ("script cannot be read: " ++ env.scriptName) }
    | some scriptText =>
      let settings := env.ClientSetupInit scriptText
      match env.GameSetupInit scriptText with
      | none => { trace := [], status := Status.returned 1 }
      | some gameSetup =>
        let l := launch rng env settings gameSetup
        let s := supervise env.server fuel
        if s.2 then
          { trace := l.2 ++ s.1 ++ [Event.DeleteServer], status := Status.completed }
        else
          { trace := l.2 ++ s.1, status := Status.running }

/-! ## Observations on a trace -/

/-- The `GameData` objects with which a server was constructed. -/
def descriptors (tr : List Event) : List GameData :=
  tr.filterMap fun e =>
    match e with
    | Event.NewGameServer _ _ d => some d
    | _ => none

/-- Number of one-second sleeps. -/
def sleeps (tr : List Event) : Nat := tr.count Event.Sleep

/-- Number of executions of the `printData` block. -/
def prints (tr : List Event) : Nat := tr.count Event.PrintData

/-- Content calls issued for the map: checksum query of the map block, the
local file check and the archive mount. -/
def isMapIndexCall : Event → Bool
  | Event.GetArchiveCompleteChecksum ContentKind.map _ => true
  | Event.FileExists _ => true
  | Event.AddArchiveWithDeps _ => true
  | _ => false

/-- Content calls issued for the mod: name resolution and the checksum query of
the mod block. -/
def isModIndexCall : Event → Bool
  | Event.ArchiveFromName _ => true
  | Event.GetArchiveCompleteChecksum ContentKind.mod _ => true
  | _ => false

/-- Calls on the generator. -/
def isRngCall : Event → Bool
  | Event.Seed _ => true
  | Event.RandInt => true
  | _ => false

/-- Construction of the server. -/
def isLaunch : Event → Bool
  | Event.NewGameServer _ _ _ => true
  | _ => false

/-- Events emitted by the two polling loops. -/
def isLoopEvent : Event → Bool
  | Event.Break => true
  | Event.Sleep => true
  | Event.PrintData => true
  | _ => false

/-- Events of the map block, lines 192-203. -/
def isMapBlockEvent : Event → Bool
  | Event.GetArchiveCompleteChecksum ContentKind.map _ => true
  | Event.SetMapChecksum _ => true
  | Event.FileExists _ => true
  | Event.AddArchiveWithDeps _ => true
  | Event.LoadStartPositions _ => true
  | _ => false

/-- Seed derivation as the specification words it: the single draw of a fresh
generator after folding in the two inputs in order. -/
def DeriveSeed (rng : UnsyncedRNG) (scriptLength pathLength : Nat) : Nat :=
  (rng.RandInt (rng.Seed (rng.Seed rng.fresh scriptLength) pathLength)).1

/-- The events of lines 184-215, before the server is constructed. -/
def beforeLaunch (rng : UnsyncedRNG) (env : Env) (gameSetup : CGameSetup) : List Event :=
  (seedBlock rng env gameSetup).2 ++ (mapBlock env gameSetup).2 ++ (modBlock env gameSetup).2 ++
    [Event.SetSetup gameSetup.gameSetupText]

/-- The events after the launch: the loops and, when they are left, the
deletion of the server. -/
def afterLaunch (server : CGameServer) (fuel : Nat) : List Event :=
  (supervise server fuel).1 ++ (if (supervise server fuel).2 then [Event.DeleteServer] else [])

/-- The events of the two loops when the first loop is left at tick `t1` and
the server is first finished at tick `tf`. -/
def loopTrace (server : CGameServer) (t1 tf : Nat) : List Event :=
  List.replicate t1 Event.Sleep ++
    (if server.HasGameID t1 = true then [] else [Event.Break]) ++
    ((if 0 < tf - t1 then [Event.PrintData] else []) ++ List.replicate (tf - t1) Event.Sleep)

/-! ## Concrete collaborators used in examples -/

/-- A linear congruential generator. -/
def lcg : UnsyncedRNG :=
  { State := Nat
    fresh := 0
    Seed := fun s n => (s + n) % 4294967296
    RandInt := fun s =>
      let s1 := (s * 214013 + 2531011) % 4294967296
      (s1 / 65536 % 32768, s1) }

/-- A server that never gets a GameID and reports finished from tick 3 on. -/
def abandonedServer : CGameServer :=
  { HasGameID := fun _ => false
    HasFinished := fun t => decide (3 ≤ t) }

/-- A server that has its GameID at tick 2 and is finished from tick 52 on. -/
def playedServer : CGameServer :=
  { HasGameID := fun t => decide (2 ≤ t)
    HasFinished := fun t => decide (52 ≤ t) }

/-- A server that gets its GameID and finishes within the first second: at
tick 0 neither flag is set, from tick 1 on both are. -/
def flashServer : CGameServer :=
  { HasGameID := fun t => decide (1 ≤ t)
    HasFinished := fun t => decide (1 ≤ t) }

/-- The scenario of the specification: map "DesertPlanet" without a hash, known
to the archive scanner with checksum 0x12345678 but not present under maps/,
and mod "CoreMod v1" with the script hash 0xDEADBEEF. -/
def desertEnv : Env :=
  { scriptName := "script.txt"
    FileExists := fun p => p == "script.txt"
    LoadStringData := fun _ => some "[GAME]"
    ClientSetupInit := fun _ => { hostIP := "", hostPort := 8452 }
    GameSetupInit := fun t =>
      some { mapName := "DesertPlanet", modName := "CoreMod v1", mapHash := 0,
             modHash := 0xDEADBEEF, gameSetupText := t }
    GetArchiveCompleteChecksum := fun n => if n == "DesertPlanet" then 0x12345678 else 0
    ArchiveFromName := fun n => n
    server := abandonedServer }

/-- A script in which both hashes are given. -/
def hashedEnv (server : CGameServer) : Env :=
  { scriptName := "script.txt"
    FileExists := fun p => p == "script.txt"
    LoadStringData := fun _ => some "[GAME]"
    ClientSetupInit := fun _ => { hostIP := "", hostPort := 8452 }
    GameSetupInit := fun t =>
      some { mapName := "DesertPlanet", modName := "CoreMod v1", mapHash := 0x12345678,
             modHash := 0xDEADBEEF, gameSetupText := t }
    GetArchiveCompleteChecksum := fun _ => 0
    ArchiveFromName := fun n => n
    server := server }

/-- Another script: different path, text, map, mod and hashes, but a path and
a text of the same lengths as in `desertEnv`. -/
def otherEnv : Env :=
  { scriptName := "battle.txt"
    FileExists := fun p => p == "battle.txt"
    LoadStringData := fun _ => some "[game]"
    ClientSetupInit := fun _ => { hostIP := "127.0.0.1", hostPort := 8000 }
    GameSetupInit := fun t =>
      some { mapName := "Tundra", modName := "OtherMod", mapHash := 7,
             modHash := 0, gameSetupText := t }
    GetArchiveCompleteChecksum := fun _ => 99
    ArchiveFromName := fun n => n ++ ".sdz"
    server := flashServer }

/-- A script that the parser rejects. -/
def rejectedEnv : Env :=
  { scriptName := "script.txt"
    FileExists := fun p => p == "script.txt"
    LoadStringData := fun _ => some "garbage"
    ClientSetupInit := fun _ => { hostIP := "", hostPort := 8452 }
    GameSetupInit := fun _ => none
    GetArchiveCompleteChecksum := fun _ => 0
    ArchiveFromName := fun n => n
    server := abandonedServer }

/-! ## Structure of a run -/

theorem descriptors_append (a b : List Event) :
    descriptors (a ++ b) = descriptors a ++ descriptors b := by
  simp [descriptors, List.filterMap_append]

theorem sleeps_append (a b : List Event) : sleeps (a ++ b) = sleeps a + sleeps b := by
  simp [sleeps, List.count_append]

theorem prints_append (a b : List Event) : prints (a ++ b) = prints a + prints b := by
  simp [prints, List.count_append]

theorem descriptors_of_loop (tr : List Event) (h : ∀ e ∈ tr, isLoopEvent e = true) :
    descriptors tr = [] := by
  induction tr with
  | nil => rfl
  | cons e tr ih =>
    have he := h e (List.mem_cons_self _ _)
    have ht := ih (fun x hx => h x (List.mem_cons_of_mem _ hx))
    cases e <;> simp_all [descriptors, isLoopEvent]

theorem awaitGameID_loop (server : CGameServer) (fuel t : Nat) :
    ∀ e ∈ (awaitGameID server fuel t).1, isLoopEvent e = true := by
  induction fuel generalizing t with
  | zero => simp [awaitGameID]
  | succ fuel ih =>
    intro e he
    unfold awaitGameID at he
    split at he
    · simp at he
    · split at he
      · simp at he; subst he; rfl
      · simp at he
        rcases he with he | he
        · subst he; rfl
        · exact ih _ e he

theorem pollFinished_loop (server : CGameServer) (fuel t : Nat) (printData : Bool) :
    ∀ e ∈ (pollFinished server fuel t printData).1, isLoopEvent e = true := by
  induction fuel generalizing t printData with
  | zero => simp [pollFinished]
  | succ fuel ih =>
    intro e he
    unfold pollFinished at he
    split at he
    · simp at he
    · simp at he
      rcases he with he | he | he
      · rw [he.2]; rfl
      · subst he; rfl
      · exact ih _ _ e he

theorem supervise_loop (server : CGameServer) (fuel : Nat) :
    ∀ e ∈ (supervise server fuel).1, isLoopEvent e = true := by
  intro e he
  cases h : (awaitGameID server fuel 0).2 with
  | none =>
    simp only [supervise, h] at he
    exact awaitGameID_loop _ _ _ e he
  | some t =>
    simp only [supervise, h, List.mem_append] at he
    rcases he with he | he
    · exact awaitGameID_loop _ _ _ e he
    · exact pollFinished_loop _ _ _ _ e he

theorem main_trace (rng : UnsyncedRNG) (env : Env) (fuel : Nat) (scriptText : String)
    (gameSetup : CGameSetup)
    (hex : env.FileExists env.scriptName = true)
    (hload : env.LoadStringData env.scriptName = some scriptText)
    (hinit : env.GameSetupInit scriptText = some gameSetup) :
    (main rng env fuel).trace =
      (launch rng env (env.ClientSetupInit scriptText) gameSetup).2 ++
        afterLaunch env.server fuel := by
  by_cases h : (supervise env.server fuel).2 = true <;>
    simp [main, hex, hload, hinit, afterLaunch, h]

theorem main_status (rng : UnsyncedRNG) (env : Env) (fuel : Nat) (scriptText : String)
    (gameSetup : CGameSetup)
    (hex : env.FileExists env.scriptName = true)
    (hload : env.LoadStringData env.scriptName = some scriptText)
    (hinit : env.GameSetupInit scriptText = some gameSetup) :
    (main rng env fuel).status =
      if (supervise env.server fuel).2 then Status.completed else Status.running := by
  by_cases h : (supervise env.server fuel).2 = true <;>
    simp [main, hex, hload, hinit, h]

theorem afterLaunch_mem (server : CGameServer) (fuel : Nat) :
    ∀ e ∈ afterLaunch server fuel, isLoopEvent e = true ∨ e = Event.DeleteServer := by
  intro e he
  unfold afterLaunch at he
  simp only [List.mem_append] at he
  rcases he with he | he
  · exact Or.inl (supervise_loop _ _ e he)
  · split at he
    · simp at he; exact Or.inr he
    · simp at he

theorem descriptors_afterLaunch (server : CGameServer) (fuel : Nat) :
    descriptors (afterLaunch server fuel) = [] := by
  unfold afterLaunch
  rw [descriptors_append, descriptors_of_loop _ (supervise_loop server fuel)]
  split <;> simp [descriptors]

theorem descriptors_launch (rng : UnsyncedRNG) (env : Env) (settings : ClientSetup)
    (gameSetup : CGameSetup) :
    descriptors (launch rng env settings gameSetup).2 = [(launch rng env settings gameSetup).1] := by
  simp only [launch, seedBlock, mapBlock, modBlock]
  split <;> split <;> (try split) <;> simp [descriptors]

theorem descriptors_main (rng : UnsyncedRNG) (env : Env) (fuel : Nat) (scriptText : String)
    (gameSetup : CGameSetup)
    (hex : env.FileExists env.scriptName = true)
    (hload : env.LoadStringData env.scriptName = some scriptText)
    (hinit : env.GameSetupInit scriptText = some gameSetup) :
    descriptors (main rng env fuel).trace =
      [(launch rng env (env.ClientSetupInit scriptText) gameSetup).1] := by
  rw [main_trace rng env fuel scriptText gameSetup hex hload hinit, descriptors_append,
    descriptors_launch, descriptors_afterLaunch]
  simp

theorem loop_event_kinds (e : Event) (h : isLoopEvent e = true ∨ e = Event.DeleteServer) :
    isMapIndexCall e = false ∧ isModIndexCall e = false ∧ isRngCall e = false ∧
      isLaunch e = false ∧ isMapBlockEvent e = false := by
  rcases h with h | h
  · cases e <;>
      simp_all [isLoopEvent, isMapIndexCall, isModIndexCall, isRngCall, isLaunch, isMapBlockEvent]
  · subst h; simp [isMapIndexCall, isModIndexCall, isRngCall, isLaunch, isMapBlockEvent]

theorem afterLaunch_filter (server : CGameServer) (fuel : Nat) (p : Event → Bool)
    (hp : ∀ e, (isLoopEvent e = true ∨ e = Event.DeleteServer) → p e = false) :
    (afterLaunch server fuel).filter p = [] := by
  rw [List.filter_eq_nil_iff]
  intro e he
  simp [hp e (afterLaunch_mem server fuel e he)]

theorem launch_trace (rng : UnsyncedRNG) (env : Env) (settings : ClientSetup)
    (gameSetup : CGameSetup) :
    (launch rng env settings gameSetup).2 =
      beforeLaunch rng env gameSetup ++
        [Event.NewGameServer settings.hostIP settings.hostPort
          (launch rng env settings gameSetup).1] := by
  simp [launch, beforeLaunch]

theorem launch_data (rng : UnsyncedRNG) (env : Env) (settings : ClientSetup)
    (gameSetup : CGameSetup) :
    (launch rng env settings gameSetup).1 =
      { randomSeed := DeriveSeed rng gameSetup.gameSetupText.length env.scriptName.length
        mapChecksum :=
          if gameSetup.mapHash ≠ 0 then gameSetup.mapHash
          else env.GetArchiveCompleteChecksum gameSetup.mapName
        modChecksum :=
          if gameSetup.modHash ≠ 0 then gameSetup.modHash
          else env.GetArchiveCompleteChecksum (env.ArchiveFromName gameSetup.modName)
        setup := gameSetup.gameSetupText } := by
  by_cases hmap : gameSetup.mapHash = 0 <;> by_cases hmod : gameSetup.modHash = 0 <;>
    simp [launch, seedBlock, mapBlock, modBlock, DeriveSeed, hmap, hmod]

theorem beforeLaunch_not_launch (rng : UnsyncedRNG) (env : Env) (gameSetup : CGameSetup) :
    ∀ e ∈ beforeLaunch rng env gameSetup, isLaunch e = false := by
  intro e he
  simp only [beforeLaunch, seedBlock, mapBlock, modBlock] at he
  split at he <;> split at he <;> (try split at he) <;>
    simp at he <;> rcases he with h | h | h | h | h | h | h | h | h | h | h | h | h <;>
    (try subst h) <;> simp_all [isLaunch]

theorem split_at_launch (a b pre post : List Event) (x y : Event)
    (ha : ∀ e ∈ a, isLaunch e = false) (hb : ∀ e ∈ b, isLaunch e = false)
    (hy : isLaunch y = true) (h : a ++ x :: b = pre ++ y :: post) :
    pre = a ∧ y = x := by
  induction a generalizing pre with
  | nil =>
    cases pre with
    | nil => simp at h; exact ⟨rfl, h.1.symm⟩
    | cons p pre =>
      simp at h
      have hyb : y ∈ b := by rw [h.2]; simp
      rw [hb y hyb] at hy
      cases hy
  | cons e a ih =>
    cases pre with
    | nil =>
      simp at h
      have := ha e (List.mem_cons_self _ _)
      rw [h.1, hy] at this
      cases this
    | cons p pre =>
      simp at h
      have := ih pre (fun x hx => ha x (List.mem_cons_of_mem _ hx)) h.2
      exact ⟨by rw [this.1, h.1], this.2⟩

theorem launch_map_calls_hashed (rng : UnsyncedRNG) (env : Env) (settings : ClientSetup)
    (gameSetup : CGameSetup) (hmap : gameSetup.mapHash ≠ 0) :
    (launch rng env settings gameSetup).2.filter isMapIndexCall = [] := by
  by_cases hmod : gameSetup.modHash = 0 <;>
    simp [launch, seedBlock, mapBlock, modBlock, hmap, hmod, List.filter_cons, isMapIndexCall]

theorem launch_mod_calls_hashed (rng : UnsyncedRNG) (env : Env) (settings : ClientSetup)
    (gameSetup : CGameSetup) (hmod : gameSetup.modHash ≠ 0) :
    (launch rng env settings gameSetup).2.filter isModIndexCall = [] := by
  by_cases hmap : gameSetup.mapHash = 0 <;>
    by_cases hfile : env.FileExists ("maps/" ++ gameSetup.mapName) = true <;>
    simp [launch, seedBlock, mapBlock, modBlock, hmap, hmod, hfile, List.filter_cons,
      isModIndexCall]

theorem launch_mod_calls_unhashed (rng : UnsyncedRNG) (env : Env) (settings : ClientSetup)
    (gameSetup : CGameSetup) (hmod : gameSetup.modHash = 0) :
    (launch rng env settings gameSetup).2.filter isModIndexCall =
      [Event.ArchiveFromName gameSetup.modName,
       Event.GetArchiveCompleteChecksum ContentKind.mod
         (env.ArchiveFromName gameSetup.modName)] := by
  by_cases hmap : gameSetup.mapHash = 0 <;>
    by_cases hfile : env.FileExists ("maps/" ++ gameSetup.mapName) = true <;>
    simp [launch, seedBlock, mapBlock, modBlock, hmap, hmod, hfile, List.filter_cons,
      isModIndexCall]

theorem launch_map_block_absent (rng : UnsyncedRNG) (env : Env) (settings : ClientSetup)
    (gameSetup : CGameSetup) (hmap : gameSetup.mapHash = 0)
    (hfile : env.FileExists ("maps/" ++ gameSetup.mapName) = false) :
    (launch rng env settings gameSetup).2.filter isMapBlockEvent =
      [Event.GetArchiveCompleteChecksum ContentKind.map gameSetup.mapName,
       Event.SetMapChecksum (env.GetArchiveCompleteChecksum gameSetup.mapName),
       Event.FileExists ("maps/" ++ gameSetup.mapName),
       Event.AddArchiveWithDeps gameSetup.mapName,
       Event.LoadStartPositions true] := by
  by_cases hmod : gameSetup.modHash = 0 <;>
    simp [launch, seedBlock, mapBlock, modBlock, hmap, hmod, hfile, List.filter_cons,
      isMapBlockEvent]

theorem launch_rng_calls (rng : UnsyncedRNG) (env : Env) (settings : ClientSetup)
    (gameSetup : CGameSetup) :
    (launch rng env settings gameSetup).2.filter isRngCall =
      [Event.Seed gameSetup.gameSetupText.length, Event.Seed env.scriptName.length,
       Event.RandInt] := by
  by_cases hmap : gameSetup.mapHash = 0 <;> by_cases hmod : gameSetup.modHash = 0 <;>
    by_cases hfile : env.FileExists ("maps/" ++ gameSetup.mapName) = true <;>
    simp [launch, seedBlock, mapBlock, modBlock, hmap, hmod, hfile, List.filter_cons,
      isRngCall]

theorem beforeLaunch_assignments (rng : UnsyncedRNG) (env : Env) (settings : ClientSetup)
    (gameSetup : CGameSetup) :
    Event.RandInt ∈ beforeLaunch rng env gameSetup ∧
    Event.SetRandomSeed (launch rng env settings gameSetup).1.randomSeed ∈
      beforeLaunch rng env gameSetup ∧
    Event.SetMapChecksum (launch rng env settings gameSetup).1.mapChecksum ∈
      beforeLaunch rng env gameSetup ∧
    Event.SetModChecksum (launch rng env settings gameSetup).1.modChecksum ∈
      beforeLaunch rng env gameSetup := by
  by_cases hmap : gameSetup.mapHash = 0 <;> by_cases hmod : gameSetup.modHash = 0 <;>
    simp [launch, beforeLaunch, seedBlock, mapBlock, modBlock, hmap, hmod]

theorem filter_main (p : Event → Bool)
    (hp : ∀ e, (isLoopEvent e = true ∨ e = Event.DeleteServer) → p e = false)
    (rng : UnsyncedRNG) (env : Env) (fuel : Nat) (scriptText : String)
    (gameSetup : CGameSetup)
    (hex : env.FileExists env.scriptName = true)
    (hload : env.LoadStringData env.scriptName = some scriptText)
    (hinit : env.GameSetupInit scriptText = some gameSetup) :
    (main rng env fuel).trace.filter p =
      (launch rng env (env.ClientSetupInit scriptText) gameSetup).2.filter p := by
  rw [main_trace rng env fuel scriptText gameSetup hex hload hinit, List.filter_append,
    afterLaunch_filter _ _ p hp]
  simp

/-! ## Content resolution (lines 191-211) -/

/-- C1: when the script gives a non-zero map hash, the descriptor handed to the
server carries exactly that hash as map checksum and the run issues no content
call for the map (no checksum query, no local file check, no archive mount);
when it gives a non-zero mod hash, the descriptor carries exactly that hash as
mod checksum and the run issues neither the name resolution nor the checksum
query for the mod. -/
theorem trusted_hash_skips_index (rng : UnsyncedRNG) (env : Env) (fuel : Nat)
    (scriptText : String) (gameSetup : CGameSetup)
    (hex : env.FileExists env.scriptName = true)
    (hload : env.LoadStringData env.scriptName = some scriptText)
    (hinit : env.GameSetupInit scriptText = some gameSetup) :
    (gameSetup.mapHash ≠ 0 →
      (∃ d, descriptors (main rng env fuel).trace = [d] ∧ d.mapChecksum = gameSetup.mapHash) ∧
      ∀ e ∈ (main rng env fuel).trace, isMapIndexCall e = false) ∧
    (gameSetup.modHash ≠ 0 →
      (∃ d, descriptors (main rng env fuel).trace = [d] ∧ d.modChecksum = gameSetup.modHash) ∧
      ∀ e ∈ (main rng env fuel).trace, isModIndexCall e = false) := by
  have hd := descriptors_main rng env fuel scriptText gameSetup hex hload hinit
  have hdata := launch_data rng env (env.ClientSetupInit scriptText) gameSetup
  constructor
  · intro hmap
    refine ⟨⟨_, hd, by rw [hdata]; simp [hmap]⟩, ?_⟩
    have hf := filter_main isMapIndexCall (fun e he => (loop_event_kinds e he).1)
      rng env fuel scriptText gameSetup hex hload hinit
    rw [launch_map_calls_hashed _ _ _ _ hmap, List.filter_eq_nil_iff] at hf
    intro e he
    simpa using hf e he
  · intro hmod
    refine ⟨⟨_, hd, by rw [hdata]; simp [hmod]⟩, ?_⟩
    have hf := filter_main isModIndexCall (fun e he => (loop_event_kinds e he).2.1)
      rng env fuel scriptText gameSetup hex hload hinit
    rw [launch_mod_calls_hashed _ _ _ _ hmod, List.filter_eq_nil_iff] at hf
    intro e he
    simpa using hf e he

/-- C1, instance: a script with both hashes given; the descriptor carries both
hashes and the run contains no content call at all. -/
theorem trusted_hash_skips_index_witness :
    ((∃ d, descriptors (main lcg (hashedEnv abandonedServer) 5).trace = [d] ∧
        d.mapChecksum = 0x12345678) ∧
      ∀ e ∈ (main lcg (hashedEnv abandonedServer) 5).trace, isMapIndexCall e = false) ∧
    ((∃ d, descriptors (main lcg (hashedEnv abandonedServer) 5).trace = [d] ∧
        d.modChecksum = 0xDEADBEEF) ∧
      ∀ e ∈ (main lcg (hashedEnv abandonedServer) 5).trace, isModIndexCall e = false) :=
  have h := trusted_hash_skips_index lcg (hashedEnv abandonedServer) 5 "[GAME]"
    { mapName := "DesertPlanet", modName := "CoreMod v1", mapHash := 0x12345678,
      modHash := 0xDEADBEEF, gameSetupText := "[GAME]" }
    (by decide) (by decide) (by decide)
  ⟨h.1 (by decide), h.2 (by decide)⟩

/-- C3: each reference is resolved on its own. With map hash 0 the map checksum
of the descriptor is the archive scanner's complete checksum of `mapName`; with
mod hash 0 the mod checksum is the complete checksum of the archive that
`ArchiveFromName` returns for `modName`, and the run issues exactly these two
mod calls in this order; a non-zero hash is taken as it is. -/
theorem unhashed_reference_resolved_by_index (rng : UnsyncedRNG) (env : Env) (fuel : Nat)
    (scriptText : String) (gameSetup : CGameSetup)
    (hex : env.FileExists env.scriptName = true)
    (hload : env.LoadStringData env.scriptName = some scriptText)
    (hinit : env.GameSetupInit scriptText = some gameSetup) :
    ∃ d, descriptors (main rng env fuel).trace = [d] ∧
      d.mapChecksum =
        (if gameSetup.mapHash = 0 then env.GetArchiveCompleteChecksum gameSetup.mapName
         else gameSetup.mapHash) ∧
      d.modChecksum =
        (if gameSetup.modHash = 0 then
           env.GetArchiveCompleteChecksum (env.ArchiveFromName gameSetup.modName)
         else gameSetup.modHash) ∧
      (gameSetup.modHash = 0 →
        (main rng env fuel).trace.filter isModIndexCall =
          [Event.ArchiveFromName gameSetup.modName,
           Event.GetArchiveCompleteChecksum ContentKind.mod
             (env.ArchiveFromName gameSetup.modName)]) := by
  refine ⟨_, descriptors_main rng env fuel scriptText gameSetup hex hload hinit, ?_, ?_, ?_⟩
  · rw [launch_data]
    by_cases hmap : gameSetup.mapHash = 0 <;> simp [hmap]
  · rw [launch_data]
    by_cases hmod : gameSetup.modHash = 0 <;> simp [hmod]
  · intro hmod
    rw [filter_main isModIndexCall (fun e he => (loop_event_kinds e he).2.1)
      rng env fuel scriptText gameSetup hex hload hinit]
    exact launch_mod_calls_unhashed _ _ _ _ hmod

/-- C3, instance: the scenario with map "DesertPlanet" (no hash, checksum
0x12345678 in the archive scanner) and mod "CoreMod v1" (hash 0xDEADBEEF). -/
theorem unhashed_reference_resolved_by_index_witness :
    ∃ d, descriptors (main lcg desertEnv 5).trace = [d] ∧
      d.mapChecksum = 0x12345678 ∧ d.modChecksum = 0xDEADBEEF := by
  obtain ⟨d, hd, hmap, hmod, _⟩ :=
    unhashed_reference_resolved_by_index lcg desertEnv 5 "[GAME]"
      { mapName := "DesertPlanet", modName := "CoreMod v1", mapHash := 0,
        modHash := 0xDEADBEEF, gameSetupText := "[GAME]" }
      (by decide) (by decide) (by decide)
  refine ⟨d, hd, ?_, ?_⟩
  · rw [hmap]; decide
  · rw [hmod]; decide

/-- C4, counterexample: for the unhashed, locally absent map "DesertPlanet" the
content calls for the map are, in order, the checksum query, the local file
check and the archive mount: the checksum is computed before the map is
mounted. -/
theorem map_checksum_precedes_mount :
    (main lcg desertEnv 5).trace.filter isMapIndexCall =
      [Event.GetArchiveCompleteChecksum ContentKind.map "DesertPlanet",
       Event.FileExists "maps/DesertPlanet",
       Event.AddArchiveWithDeps "DesertPlanet"] ∧
    List.indexOf (Event.GetArchiveCompleteChecksum ContentKind.map "DesertPlanet")
        (main lcg desertEnv 5).trace <
      List.indexOf (Event.AddArchiveWithDeps "DesertPlanet") (main lcg desertEnv 5).trace := by
  decide

/-- C4, amended: for a script with map hash 0 whose map file is not present
locally, the events of the map block are, in this order: the checksum query on
`mapName`, the assignment of its result, the local file check on
`"maps/" + mapName`, the mount of `mapName` with its dependencies, and the
loading of the start positions in full mode. -/
theorem map_block_order (rng : UnsyncedRNG) (env : Env) (fuel : Nat)
    (scriptText : String) (gameSetup : CGameSetup)
    (hex : env.FileExists env.scriptName = true)
    (hload : env.LoadStringData env.scriptName = some scriptText)
    (hinit : env.GameSetupInit scriptText = some gameSetup)
    (hmap : gameSetup.mapHash = 0)
    (hfile : env.FileExists ("maps/" ++ gameSetup.mapName) = false) :
    (main rng env fuel).trace.filter isMapBlockEvent =
      [Event.GetArchiveCompleteChecksum ContentKind.map gameSetup.mapName,
       Event.SetMapChecksum (env.GetArchiveCompleteChecksum gameSetup.mapName),
       Event.FileExists ("maps/" ++ gameSetup.mapName),
       Event.AddArchiveWithDeps gameSetup.mapName,
       Event.LoadStartPositions true] := by
  rw [filter_main isMapBlockEvent (fun e he => (loop_event_kinds e he).2.2.2.2)
    rng env fuel scriptText gameSetup hex hload hinit]
  exact launch_map_block_absent _ _ _ _ hmap hfile

/-- C4, amended, instance: the map "DesertPlanet". -/
theorem map_block_order_witness :
    (main lcg desertEnv 5).trace.filter isMapBlockEvent =
      [Event.GetArchiveCompleteChecksum ContentKind.map "DesertPlanet",
       Event.SetMapChecksum 0x12345678,
       Event.FileExists "maps/DesertPlanet",
       Event.AddArchiveWithDeps "DesertPlanet",
       Event.LoadStartPositions true] :=
  map_block_order lcg desertEnv 5 "[GAME]"
    { mapName := "DesertPlanet", modName := "CoreMod v1", mapHash := 0,
      modHash := 0xDEADBEEF, gameSetupText := "[GAME]" }
    (by decide) (by decide) (by decide) (by decide) (by decide)

/-! ## Seed derivation (lines 184-189) -/

/-- C8: the random seed of the descriptor is the single draw of a fresh
generator seeded first with the length of the script text and then with the
length of the script path; these three are the only generator calls of the
run; and two runs whose script texts have equal length and whose script paths
have equal length put the same seed into their descriptors, whatever else the
scripts and the environments contain. -/
theorem seed_depends_on_lengths_only (rng : UnsyncedRNG) (envA envB : Env) (fuelA fuelB : Nat)
    (textA textB : String) (setupA setupB : CGameSetup)
    (hexA : envA.FileExists envA.scriptName = true)
    (hloadA : envA.LoadStringData envA.scriptName = some textA)
    (hinitA : envA.GameSetupInit textA = some setupA)
    (hexB : envB.FileExists envB.scriptName = true)
    (hloadB : envB.LoadStringData envB.scriptName = some textB)
    (hinitB : envB.GameSetupInit textB = some setupB) :
    (descriptors (main rng envA fuelA).trace).map GameData.randomSeed =
      [DeriveSeed rng setupA.gameSetupText.length envA.scriptName.length] ∧
    (main rng envA fuelA).trace.filter isRngCall =
      [Event.Seed setupA.gameSetupText.length, Event.Seed envA.scriptName.length,
       Event.RandInt] ∧
    (setupA.gameSetupText.length = setupB.gameSetupText.length →
      envA.scriptName.length = envB.scriptName.length →
      (descriptors (main rng envA fuelA).trace).map GameData.randomSeed =
        (descriptors (main rng envB fuelB).trace).map GameData.randomSeed) := by
  have hA := descriptors_main rng envA fuelA textA setupA hexA hloadA hinitA
  have hB := descriptors_main rng envB fuelB textB setupB hexB hloadB hinitB
  refine ⟨?_, ?_, ?_⟩
  · rw [hA, launch_data]; rfl
  · rw [filter_main isRngCall (fun e he => (loop_event_kinds e he).2.2.1)
      rng envA fuelA textA setupA hexA hloadA hinitA]
    exact launch_rng_calls _ _ _ _
  · intro htext hpath
    rw [hA, hB, launch_data, launch_data, htext, hpath]
    rfl

/-- C8, instance: two scripts that differ in path, text, map, mod, hashes and
server but agree on the two lengths get the same seed. -/
theorem seed_depends_on_lengths_only_witness :
    (descriptors (main lcg desertEnv 5).trace).map GameData.randomSeed =
      (descriptors (main lcg otherEnv 1).trace).map GameData.randomSeed :=
  (seed_depends_on_lengths_only lcg desertEnv otherEnv 5 1 "[GAME]" "[game]"
    { mapName := "DesertPlanet", modName := "CoreMod v1", mapHash := 0,
      modHash := 0xDEADBEEF, gameSetupText := "[GAME]" }
    { mapName := "Tundra", modName := "OtherMod", mapHash := 7,
      modHash := 0, gameSetupText := "[game]" }
    (by decide) (by decide) (by decide) (by decide) (by decide) (by decide)).2.2
    (by decide) (by decide)

/-! ## Order of the bootstrap (lines 166-216) -/

/-- C9: when the script file does not exist, cannot be read or is rejected by
`CGameSetup::Init`, the trace of the run is empty (no generator call, no
content call, no assignment to `data`, no construction of the server); the first two cases throw, the
rejected script makes `main` return 1. Conversely, wherever the construction
of the server occurs in a run, the draw of the seed, its assignment and the
assignments of the map and mod checksums of that very descriptor occur before
it. -/
theorem bootstrap_short_circuits (rng : UnsyncedRNG) (env : Env) (fuel : Nat) :
    (env.FileExists env.scriptName = false →
      (main rng env fuel).trace = [] ∧ ∃ msg, (main rng env fuel).status = Status.threw msg) ∧
    (env.LoadStringData env.scriptName = none →
      (main rng env fuel).trace = [] ∧ ∃ msg, (main rng env fuel).status = Status.threw msg) ∧
    (∀ scriptText, env.LoadStringData env.scriptName = some scriptText →
      env.GameSetupInit scriptText = none →
      (main rng env fuel).trace = [] ∧
        (env.FileExists env.scriptName = true →
          (main rng env fuel).status = Status.returned 1)) ∧
    (∀ pre post hostIP hostPort data,
      (main rng env fuel).trace = pre ++ Event.NewGameServer hostIP hostPort data :: post →
      Event.RandInt ∈ pre ∧ Event.SetRandomSeed data.randomSeed ∈ pre ∧
        Event.SetMapChecksum data.mapChecksum ∈ pre ∧
        Event.SetModChecksum data.modChecksum ∈ pre) := by
  refine ⟨?_, ?_, ?_, ?_⟩
  · intro hex
    simp [main, hex]
  · intro hload
    by_cases hex : env.FileExists env.scriptName = true <;> simp [main, hex, hload]
  · intro scriptText hload hinit
    by_cases hex : env.FileExists env.scriptName = true <;> simp [main, hex, hload, hinit]
  · intro pre post hostIP hostPort data htrace
    by_cases hex : env.FileExists env.scriptName = true
    · cases hload : env.LoadStringData env.scriptName with
      | none => simp [main, hex, hload] at htrace
      | some scriptText =>
        cases hinit : env.GameSetupInit scriptText with
        | none => simp [main, hex, hload, hinit] at htrace
        | some gameSetup =>
          rw [main_trace rng env fuel scriptText gameSetup hex hload hinit, launch_trace,
            List.append_assoc, List.singleton_append] at htrace
          have hsplit := split_at_launch _ _ pre post _
            (Event.NewGameServer hostIP hostPort data)
            (beforeLaunch_not_launch rng env gameSetup)
            (fun e he => (loop_event_kinds e (afterLaunch_mem _ _ e he)).2.2.2.1)
            rfl htrace
          have hdata : data = (launch rng env (env.ClientSetupInit scriptText) gameSetup).1 := by
            have := hsplit.2
            simp at this
            exact this.2.2
          rw [hsplit.1, hdata]
          exact beforeLaunch_assignments rng env _ gameSetup
    · simp [main, hex] at htrace

/-- C9, instance: the rejected script returns 1 without any effect, and in the
run of the "DesertPlanet" script the server is constructed after the seed and
both checksums are assigned. -/
theorem bootstrap_short_circuits_witness :
    ((main lcg rejectedEnv 5).trace = [] ∧ (main lcg rejectedEnv 5).status = Status.returned 1) ∧
    (Event.RandInt ∈ (main lcg desertEnv 5).trace.take 11 ∧
      Event.SetRandomSeed 90 ∈ (main lcg desertEnv 5).trace.take 11 ∧
      Event.SetMapChecksum 0x12345678 ∈ (main lcg desertEnv 5).trace.take 11 ∧
      Event.SetModChecksum 0xDEADBEEF ∈ (main lcg desertEnv 5).trace.take 11) :=
  ⟨⟨((bootstrap_short_circuits lcg rejectedEnv 5).2.2.1 "garbage" (by decide) (by decide)).1,
    ((bootstrap_short_circuits lcg rejectedEnv 5).2.2.1 "garbage" (by decide) (by decide)).2
      (by decide)⟩,
   (bootstrap_short_circuits lcg desertEnv 5).2.2.2
    ((main lcg desertEnv 5).trace.take 11) ((main lcg desertEnv 5).trace.drop 12)
    "" 8452
    { randomSeed := 90, mapChecksum := 0x12345678, modChecksum := 0xDEADBEEF,
      setup := "[GAME]" }
    (by decide)⟩

/-! ## The polling loops (lines 218-245) -/

theorem awaitGameID_exit (server : CGameServer) (k : Nat) :
    ∀ fuel t,
      (∀ i < k, server.HasGameID (t + i) = false ∧ server.HasFinished (t + i) = false) →
      (server.HasGameID (t + k) = true ∨ server.HasFinished (t + k) = true) →
      k < fuel →
      awaitGameID server fuel t =
        (List.replicate k Event.Sleep ++
          (if server.HasGameID (t + k) = true then [] else [Event.Break]), some (t + k)) := by
  induction k with
  | zero =>
    intro fuel t _ hexit hfuel
    obtain ⟨f, rfl⟩ : ∃ f, fuel = f + 1 := ⟨fuel - 1, by omega⟩
    simp only [Nat.add_zero] at hexit ⊢
    by_cases hid : server.HasGameID t = true
    · simp [awaitGameID, hid]
    · have hfin : server.HasFinished t = true := by
        rcases hexit with h | h
        · exact absurd h hid
        · exact h
      simp [awaitGameID, hid, hfin]
  | succ k ih =>
    intro fuel t hbefore hexit hfuel
    obtain ⟨f, rfl⟩ : ∃ f, fuel = f + 1 := ⟨fuel - 1, by omega⟩
    have h0 := hbefore 0 (by omega)
    simp only [Nat.add_zero] at h0
    have hshift : t + 1 + k = t + (k + 1) := by omega
    have hrec := ih f (t + 1)
      (fun i hi => by
        have := hbefore (i + 1) (by omega)
        have he : t + 1 + i = t + (i + 1) := by omega
        rw [he]; exact this)
      (by rw [hshift]; exact hexit) (by omega)
    rw [hshift] at hrec
    simp [awaitGameID, h0.1, h0.2, hrec, List.replicate_succ]

theorem pollFinished_exit (server : CGameServer) (k : Nat) :
    ∀ fuel t printData,
      (∀ i < k, server.HasFinished (t + i) = false) →
      server.HasFinished (t + k) = true →
      k < fuel →
      pollFinished server fuel t printData =
        ((if printData = true ∧ 0 < k then [Event.PrintData] else []) ++
          List.replicate k Event.Sleep, some (t + k)) := by
  induction k with
  | zero =>
    intro fuel t printData _ hfin hfuel
    obtain ⟨f, rfl⟩ : ∃ f, fuel = f + 1 := ⟨fuel - 1, by omega⟩
    simp only [Nat.add_zero] at hfin
    simp [pollFinished, hfin]
  | succ k ih =>
    intro fuel t printData hbefore hfin hfuel
    obtain ⟨f, rfl⟩ : ∃ f, fuel = f + 1 := ⟨fuel - 1, by omega⟩
    have h0 := hbefore 0 (by omega)
    simp only [Nat.add_zero] at h0
    have hshift : t + 1 + k = t + (k + 1) := by omega
    have hrec := ih f (t + 1) false
      (fun i hi => by
        have := hbefore (i + 1) (by omega)
        have he : t + 1 + i = t + (i + 1) := by omega
        rw [he]; exact this)
      (by rw [hshift]; exact hfin) (by omega)
    rw [hshift] at hrec
    cases printData <;> simp [pollFinished, h0, hrec, List.replicate_succ]

theorem launch_counts (rng : UnsyncedRNG) (env : Env) (settings : ClientSetup)
    (gameSetup : CGameSetup) :
    sleeps (launch rng env settings gameSetup).2 = 0 ∧
    prints (launch rng env settings gameSetup).2 = 0 ∧
    Event.Break ∉ (launch rng env settings gameSetup).2 := by
  by_cases hmap : gameSetup.mapHash = 0 <;> by_cases hmod : gameSetup.modHash = 0 <;>
    by_cases hfile : env.FileExists ("maps/" ++ gameSetup.mapName) = true <;>
    simp [launch, seedBlock, mapBlock, modBlock, hmap, hmod, hfile, sleeps, prints,
      List.count_cons]

theorem supervise_eq (server : CGameServer) (fuel t1 tf : Nat)
    (hle : t1 ≤ tf)
    (hnot : ∀ i < t1, server.HasGameID i = false)
    (hexit : server.HasGameID t1 = true ∨ t1 = tf)
    (hfin : server.HasFinished tf = true)
    (hfirst : ∀ t < tf, server.HasFinished t = false)
    (hfuel : tf < fuel) :
    supervise server fuel = (loopTrace server t1 tf, true) := by
  have hw := awaitGameID_exit server t1 fuel 0
    (fun i hi => by
      simp only [Nat.zero_add]
      exact ⟨hnot i hi, hfirst i (by omega)⟩)
    (by
      simp only [Nat.zero_add]
      rcases hexit with h | h
      · exact Or.inl h
      · exact Or.inr (by rw [h]; exact hfin))
    (by omega)
  simp only [Nat.zero_add] at hw
  have hp := pollFinished_exit server (tf - t1) fuel t1 true
    (fun i hi => hfirst (t1 + i) (by omega))
    (by
      have : t1 + (tf - t1) = tf := by omega
      rw [this]; exact hfin)
    (by omega)
  simp only [supervise, hw, hp, loopTrace]
  simp

theorem loopTrace_counts (server : CGameServer) (t1 tf : Nat) (hle : t1 ≤ tf) :
    sleeps (loopTrace server t1 tf) = tf ∧
    prints (loopTrace server t1 tf) = (if t1 < tf then 1 else 0) ∧
    (Event.Break ∈ loopTrace server t1 tf ↔ server.HasGameID t1 = false) := by
  refine ⟨?_, ?_, ?_⟩
  · unfold loopTrace
    rw [sleeps_append, sleeps_append, sleeps_append]
    have h1 : sleeps (List.replicate t1 Event.Sleep) = t1 := by simp [sleeps]
    have h2 : sleeps (List.replicate (tf - t1) Event.Sleep) = tf - t1 := by simp [sleeps]
    have h3 : sleeps (if server.HasGameID t1 = true then [] else [Event.Break]) = 0 := by
      split <;> simp [sleeps]
    have h4 : sleeps (if 0 < tf - t1 then [Event.PrintData] else []) = 0 := by
      split <;> simp [sleeps]
    rw [h1, h2, h3, h4]
    omega
  · unfold loopTrace
    rw [prints_append, prints_append, prints_append]
    have h1 : prints (List.replicate t1 Event.Sleep) = 0 := by
      simp [prints, List.count_replicate]
    have h2 : prints (List.replicate (tf - t1) Event.Sleep) = 0 := by
      simp [prints, List.count_replicate]
    have h3 : prints (if server.HasGameID t1 = true then [] else [Event.Break]) = 0 := by
      split <;> simp [prints]
    rw [h1, h2, h3]
    by_cases hlt : t1 < tf
    · have : 0 < tf - t1 := by omega
      simp [this, hlt, prints]
    · have : ¬ 0 < tf - t1 := by omega
      simp [this, hlt, prints]
  · unfold loopTrace
    by_cases hid : server.HasGameID t1 = true
    · by_cases hlt : 0 < tf - t1 <;> simp [hid, hlt, List.mem_replicate]
    · by_cases hlt : 0 < tf - t1 <;> simp [hid, hlt, List.mem_replicate]

theorem main_supervised (rng : UnsyncedRNG) (env : Env) (fuel : Nat) (scriptText : String)
    (gameSetup : CGameSetup)
    (hex : env.FileExists env.scriptName = true)
    (hload : env.LoadStringData env.scriptName = some scriptText)
    (hinit : env.GameSetupInit scriptText = some gameSetup)
    (tr : List Event) (hs : supervise env.server fuel = (tr, true)) :
    (main rng env fuel).status = Status.completed ∧
    sleeps (main rng env fuel).trace = sleeps tr ∧
    prints (main rng env fuel).trace = prints tr ∧
    (Event.Break ∈ (main rng env fuel).trace ↔ Event.Break ∈ tr) := by
  have hc := launch_counts rng env (env.ClientSetupInit scriptText) gameSetup
  have ht := main_trace rng env fuel scriptText gameSetup hex hload hinit
  have hst := main_status rng env fuel scriptText gameSetup hex hload hinit
  simp only [afterLaunch, hs] at ht
  simp only [hs] at hst
  refine ⟨by simpa using hst, ?_, ?_, ?_⟩
  · rw [ht, sleeps_append, sleeps_append, hc.1]
    simp [sleeps]
  · rw [ht, prints_append, prints_append, hc.2.1]
    simp [prints]
  · rw [ht]
    simp [hc.2.2]

/-- C5: if the server is finished at some poll tick and has had no GameID at
any earlier tick, a run with enough fuel leaves both loops and its complete
trace contains no execution of the `printData` block. -/
theorem finished_before_ready_skips_print (rng : UnsyncedRNG) (env : Env) (fuel : Nat)
    (scriptText : String) (gameSetup : CGameSetup)
    (hex : env.FileExists env.scriptName = true)
    (hload : env.LoadStringData env.scriptName = some scriptText)
    (hinit : env.GameSetupInit scriptText = some gameSetup)
    (t : Nat) (hfin : env.server.HasFinished t = true)
    (hnot : ∀ s < t, env.server.HasGameID s = false)
    (hfuel : t < fuel) :
    (main rng env fuel).status = Status.completed ∧ prints (main rng env fuel).trace = 0 := by
  have hsome : ∃ s, env.server.HasFinished s = true := ⟨t, hfin⟩
  have hle : Nat.find hsome ≤ t := Nat.find_min' hsome hfin
  have hs := supervise_eq env.server fuel (Nat.find hsome) (Nat.find hsome) (le_refl _)
    (fun i hi => hnot i (by omega)) (Or.inr rfl) (Nat.find_spec hsome)
    (fun s hlt => by simpa using Nat.find_min hsome hlt) (by omega)
  have hm := main_supervised rng env fuel scriptText gameSetup hex hload hinit _ hs
  have hc := loopTrace_counts env.server (Nat.find hsome) (Nat.find hsome) (le_refl _)
  refine ⟨hm.1, ?_⟩
  rw [hm.2.2.1, hc.2.1]
  simp

/-- C5, instance: the server without GameID that is finished at tick 3. -/
theorem finished_before_ready_skips_print_witness :
    (main lcg desertEnv 5).status = Status.completed ∧ prints (main lcg desertEnv 5).trace = 0 :=
  finished_before_ready_skips_print lcg desertEnv 5 "[GAME]"
    { mapName := "DesertPlanet", modName := "CoreMod v1", mapHash := 0,
      modHash := 0xDEADBEEF, gameSetupText := "[GAME]" }
    (by decide) (by decide) (by decide) 3 (by decide) (by decide) (by decide)

/-- C7: if the server has no GameID at any tick up to `n` and is first
finished at tick `n`, a run with enough fuel sleeps exactly `n` times in
total, leaves the first loop through its `break`, never executes the
`printData` block and reaches the end of `main` without throwing. -/
theorem abandoned_session_sleeps_n (rng : UnsyncedRNG) (env : Env) (fuel : Nat)
    (scriptText : String) (gameSetup : CGameSetup)
    (hex : env.FileExists env.scriptName = true)
    (hload : env.LoadStringData env.scriptName = some scriptText)
    (hinit : env.GameSetupInit scriptText = some gameSetup)
    (n : Nat) (hnever : ∀ s ≤ n, env.server.HasGameID s = false)
    (hnot : ∀ s < n, env.server.HasFinished s = false)
    (hfin : env.server.HasFinished n = true)
    (hfuel : n < fuel) :
    (main rng env fuel).status = Status.completed ∧
    sleeps (main rng env fuel).trace = n ∧
    Event.Break ∈ (main rng env fuel).trace ∧
    prints (main rng env fuel).trace = 0 := by
  have hs := supervise_eq env.server fuel n n (le_refl _)
    (fun i hi => hnever i (by omega)) (Or.inr rfl) hfin hnot hfuel
  have hm := main_supervised rng env fuel scriptText gameSetup hex hload hinit _ hs
  have hc := loopTrace_counts env.server n n (le_refl _)
  refine ⟨hm.1, ?_, ?_, ?_⟩
  · rw [hm.2.1, hc.1]
  · rw [hm.2.2.2, hc.2.2]
    exact hnever n (le_refl _)
  · rw [hm.2.2.1, hc.2.1]
    simp

/-- C7, instance: the scenario with `n = 3`. -/
theorem abandoned_session_sleeps_n_witness :
    (main lcg desertEnv 5).status = Status.completed ∧
    sleeps (main lcg desertEnv 5).trace = 3 ∧
    Event.Break ∈ (main lcg desertEnv 5).trace ∧
    prints (main lcg desertEnv 5).trace = 0 :=
  abandoned_session_sleeps_n lcg desertEnv 5 "[GAME]"
    { mapName := "DesertPlanet", modName := "CoreMod v1", mapHash := 0,
      modHash := 0xDEADBEEF, gameSetupText := "[GAME]" }
    (by decide) (by decide) (by decide) 3 (by decide) (by decide) (by decide) (by decide)

/-- C10: if the server is first finished at tick `tf`, a run with enough fuel
leaves both loops after exactly `tf` sleeps, whatever `HasGameID` answers; the
`printData` block is executed at most once, and it is executed exactly when
`HasGameID` holds at some tick strictly before `tf`. In particular, when no
GameID is seen before `tf` (also when it appears at `tf` itself) the block is
never executed. -/
theorem supervision_outcome (rng : UnsyncedRNG) (env : Env) (fuel : Nat)
    (scriptText : String) (gameSetup : CGameSetup)
    (hex : env.FileExists env.scriptName = true)
    (hload : env.LoadStringData env.scriptName = some scriptText)
    (hinit : env.GameSetupInit scriptText = some gameSetup)
    (tf : Nat) (hfin : env.server.HasFinished tf = true)
    (hfirst : ∀ t < tf, env.server.HasFinished t = false)
    (hfuel : tf < fuel) :
    (main rng env fuel).status = Status.completed ∧
    sleeps (main rng env fuel).trace = tf ∧
    prints (main rng env fuel).trace ≤ 1 ∧
    (prints (main rng env fuel).trace = 1 ↔ ∃ t, t < tf ∧ env.server.HasGameID t = true) ∧
    ((∀ t < tf, env.server.HasGameID t = false) → prints (main rng env fuel).trace = 0) := by
  by_cases hready : ∃ t, t < tf ∧ env.server.HasGameID t = true
  · have hspec := Nat.find_spec hready
    have hs := supervise_eq env.server fuel (Nat.find hready) tf (by omega)
      (fun i hi => by
        have := Nat.find_min hready hi
        by_cases hid : env.server.HasGameID i = true
        · exact absurd ⟨by omega, hid⟩ this
        · simpa using hid)
      (Or.inl hspec.2) hfin hfirst hfuel
    have hm := main_supervised rng env fuel scriptText gameSetup hex hload hinit _ hs
    have hc := loopTrace_counts env.server (Nat.find hready) tf (by omega)
    have hp : prints (main rng env fuel).trace = 1 := by
      rw [hm.2.2.1, hc.2.1]
      simp [hspec.1]
    refine ⟨hm.1, by rw [hm.2.1, hc.1], by omega, ⟨fun _ => hready, fun _ => hp⟩, ?_⟩
    intro hnone
    obtain ⟨t, ht, hid⟩ := hready
    rw [hnone t ht] at hid
    cases hid
  · have hnone : ∀ t < tf, env.server.HasGameID t = false := by
      intro t ht
      by_cases hid : env.server.HasGameID t = true
      · exact absurd ⟨t, ht, hid⟩ hready
      · simpa using hid
    have hs := supervise_eq env.server fuel tf tf (le_refl _) hnone (Or.inr rfl)
      hfin hfirst hfuel
    have hm := main_supervised rng env fuel scriptText gameSetup hex hload hinit _ hs
    have hc := loopTrace_counts env.server tf tf (le_refl _)
    have hp : prints (main rng env fuel).trace = 0 := by
      rw [hm.2.2.1, hc.2.1]
      simp
    refine ⟨hm.1, by rw [hm.2.1, hc.1], by omega, ⟨fun h => ?_, fun h => absurd h hready⟩,
      fun _ => hp⟩
    omega

/-- C10, instance: GameID from tick 2, finished from tick 52: 52 sleeps and
one execution of the `printData` block. -/
theorem supervision_outcome_witness :
    (main lcg (hashedEnv playedServer) 60).status = Status.completed ∧
    sleeps (main lcg (hashedEnv playedServer) 60).trace = 52 ∧
    prints (main lcg (hashedEnv playedServer) 60).trace = 1 := by
  have h := supervision_outcome lcg (hashedEnv playedServer) 60 "[GAME]"
    { mapName := "DesertPlanet", modName := "CoreMod v1", mapHash := 0x12345678,
      modHash := 0xDEADBEEF, gameSetupText := "[GAME]" }
    (by decide) (by decide) (by decide) 52 (by decide) (by decide) (by decide)
  exact ⟨h.1, h.2.1, h.2.2.2.1.2 ⟨2, by decide, by decide⟩⟩

end Dedicated
